import Mathlib

/-!
Shallow embedding of the crown-rotation core of this repository:
`src/utils/rotateCrown.js` (the rotation-cycle executor) and the
`scheduleCrown` scheduling helper.  The executor is modelled as a pure
function from a guild snapshot to the trace of gateway/store effects it
issues, together with a flag recording whether the JS function throws an
uncaught TypeError.  The scheduler is modelled as a state transformer on
the set of active node-schedule jobs plus the ad-hoc `guild.job` field.
-/

/-- A guild member as seen by the rotation cycle: its user id and whether
it currently holds the crown role (`member.roles.has(crownRole.id)`). -/
structure Member where
  uid : Nat
  hasCrown : Bool
  deriving DecidableEq, Repr

/-- One observable effect issued by a rotation cycle: a gateway role
mutation, a store mutation, a channel send, or the final log line. -/
inductive Effect where
  /-- `member.removeRole(crownRole)` gateway call issued for this uid. -/
  | roleRemove (uid : Nat)
  /-- diagnostic notice sent from the strip-phase catch block. -/
  | stripNotice
  /-- `winner.addRole(crownRole)` gateway call issued for this uid. -/
  | roleAdd (uid : Nat)
  /-- diagnostic notice sent from the grant-phase catch block. -/
  | grantNotice
  /-- `client.db.guildPoints.clearPoints.run(guild.id)`. -/
  | clearPoints
  /-- the rendered crown message sent to the default channel. -/
  | crownMsg (text : String)
  /-- `client.logger.info(...)` success line naming the winner. -/
  | logSuccess (uid : Nat)
  deriving DecidableEq, Repr

/-- Snapshot of everything `rotateCrown` reads: whether a default channel
resolved, the ranked leaderboard user ids, the member list, the gateway
outcome of each role mutation, the crown-message template, and the crown
role id. -/
structure GuildState where
  /-- `guild.channels.get(id)` resolved to a channel. -/
  defaultChannel : Bool
  /-- `selectLeaderboard.all(guild.id)` user ids, ranked. -/
  leaderboard : List Nat
  /-- `guild.members` in iteration order. -/
  members : List Member
  /-- whether `removeRole` succeeds for this uid (false = rejects). -/
  removeOk : Nat → Bool
  /-- whether `addRole` succeeds for this uid (false = rejects). -/
  addOk : Nat → Bool
  /-- `selectCrownMessage` template, when set. -/
  crownMessage : Option String
  /-- `crownRole.id`. -/
  crownRoleId : Nat

/-- Result of one executor run: the effect trace in program order, and
whether the JS function threw an uncaught TypeError. -/
structure RunResult where
  effects : List Effect
  threw : Bool
  deriving DecidableEq, Repr

/-- Boolean test that one character list starts with another (the pattern
comes first).  Used to embed the match step of JS `String.replace`. -/
def startsWithL : List Char → List Char → Bool
  | [], _ => true
  | _ :: _, [] => false
  | p :: ps, c :: cs => p == c && startsWithL ps cs

/-- JS `String.replace(pattern, repl)` with a string pattern: replaces
only the first occurrence of `pat` and leaves the rest of the string
untouched.  (For the empty pattern JS would insert at the front; the
templates in the source always use the nonempty `?member` / `?role`.) -/
def replaceFirstL (pat repl : List Char) : List Char → List Char
  | [] => []
  | c :: cs =>
    if startsWithL pat (c :: cs) then repl ++ (c :: cs).drop pat.length
    else c :: replaceFirstL pat repl cs

/-- String wrapper around `replaceFirstL`. -/
def replaceFirstStr (s pat repl : String) : String :=
  (replaceFirstL pat.toList repl.toList s.toList).asString

/-- Whether `pat` occurs anywhere in `l`. -/
def occursIn (pat : List Char) : List Char → Bool
  | [] => startsWithL pat []
  | c :: cs => startsWithL pat (c :: cs) || occursIn pat cs

/-- The member mention string JS produces when a member object is
interpolated into a template. -/
def mentionUser (u : Nat) : String := "<@" ++ toString u ++ ">"

/-- The role mention string JS produces for a role object. -/
def mentionRole (r : Nat) : String := "<@&" ++ toString r ++ ">"

/-- Embedding of the two `crownMessage.replace(...)` lines of
`rotateCrown.js`: substitute `?member` first, then `?role`, each with
JS first-occurrence semantics. -/
def renderCrownMessage (template winnerStr roleStr : String) : String :=
  replaceFirstStr (replaceFirstStr template "?member" winnerStr) "?role" roleStr

/-- Effects issued by the strip-phase callback for one member: a
role-remove attempt when the member holds the crown role, plus the
diagnostic notice when the remove fails and a default channel exists
(the callback `return`s right after sending it). -/
def stripMemberEffects (st : GuildState) (m : Member) : List Effect :=
  if m.hasCrown then
    if st.removeOk m.uid then [Effect.roleRemove m.uid]
    else if st.defaultChannel then [Effect.roleRemove m.uid, Effect.stripNotice]
    else [Effect.roleRemove m.uid]
  else []

/-- Whether the strip-phase callback for one member sets `quit = true`:
only when the remove fails AND no default channel resolved (with a
channel the callback returns before reaching the assignment). -/
def stripMemberQuit (st : GuildState) (m : Member) : Bool :=
  m.hasCrown && !(st.removeOk m.uid) && !(st.defaultChannel)

/-- The strip-phase fan-out over a member list: concatenated effects in
member order, and the final value of the `quit` flag. -/
def stripList (st : GuildState) : List Member → List Effect × Bool
  | [] => ([], false)
  | m :: ms =>
    (stripMemberEffects st m ++ (stripList st ms).1,
     stripMemberQuit st m || (stripList st ms).2)

/-- The whole strip phase (`Promise.all(guild.members.map(...))`). -/
def stripPhase (st : GuildState) : List Effect × Bool :=
  stripList st st.members

/-- Crown-message effects after a successful grant: the template is
substituted when present, and sent only when a default channel exists. -/
def msgEffects (st : GuildState) (w : Member) : List Effect :=
  match st.crownMessage with
  | some t =>
    if st.defaultChannel then
      [Effect.crownMsg (renderCrownMessage t (mentionUser w.uid) (mentionRole st.crownRoleId))]
    else []
  | none => []

/-- Embedding of `rotateCrown(client, guild, crownRole)`.
With an empty leaderboard, `leaderboard[0].user_id` throws a TypeError
before any effect.  Otherwise the strip fan-out runs, `if (quit) return`
is checked after the barrier, and the grant phase follows: an absent
winner makes `winner.addRole` throw (caught by the grant catch, no
gateway call); a failing add is caught the same way.  A grant-phase
catch with a channel returns after a notice; without a channel the code
falls through to the crown-message block and the final log line, which
itself throws when the winner is absent (`winner.displayName`). -/
def rotateCrown (st : GuildState) : RunResult :=
  match st.leaderboard with
  | [] => ⟨[], true⟩
  | u :: _ =>
    if (stripPhase st).2 then ⟨(stripPhase st).1, false⟩
    else
      match st.members.find? (fun m => m.uid == u) with
      | none =>
        if st.defaultChannel then ⟨(stripPhase st).1 ++ [Effect.grantNotice], false⟩
        else ⟨(stripPhase st).1, true⟩
      | some w =>
        if st.addOk w.uid then
          ⟨(stripPhase st).1 ++ [Effect.roleAdd w.uid, Effect.clearPoints]
            ++ msgEffects st w ++ [Effect.logSuccess w.uid], false⟩
        else if st.defaultChannel then
          ⟨(stripPhase st).1 ++ [Effect.roleAdd w.uid, Effect.grantNotice], false⟩
        else
          ⟨(stripPhase st).1 ++ [Effect.roleAdd w.uid, Effect.logSuccess w.uid], false⟩

/-- Whether an effect is a successful grant-phase role-add under the
given gateway behaviour. -/
def isSuccGrant (st : GuildState) : Effect → Bool
  | .roleAdd u => st.addOk u
  | _ => false

/-- Whether an effect is a role-add gateway call (successful or not). -/
def isRoleAdd : Effect → Bool
  | .roleAdd _ => true
  | _ => false

/-- Whether an effect can be produced by the strip phase. -/
def isStripEffect : Effect → Bool
  | .roleRemove _ => true
  | .stripNotice => true
  | _ => false

/-- Configuration read by `scheduleCrown`: the use-points flag, the crown
role id and which role ids resolve in `guild.roles`, and the cron
expression. -/
structure CrownConfig where
  enabled : Bool
  crownRoleId : Option Nat
  roleExists : Nat → Bool
  cron : Option String

/-- Scheduler state: ids of node-schedule jobs that were created and
never cancelled (each keeps firing), the ad-hoc `guild.job` field, and a
fresh-id counter. -/
structure SchedState where
  activeJobs : List Nat
  guildJob : Option Nat
  nextId : Nat
  deriving DecidableEq, Repr

/-- The eligibility test of `scheduleCrown`:
`if (enabled && crownRole && cron)`. -/
def eligible (c : CrownConfig) : Bool :=
  c.enabled
    && (match c.crownRoleId with
        | some r => c.roleExists r
        | none => false)
    && c.cron.isSome

/-- Embedding of `scheduleCrown(client, guild)`: when the guild is
eligible a new node-schedule job is created and `guild.job` is
overwritten with it; nothing is ever cancelled. -/
def scheduleCrown (c : CrownConfig) (s : SchedState) : SchedState :=
  if eligible c then
    { activeJobs := s.activeJobs ++ [s.nextId]
      guildJob := some s.nextId
      nextId := s.nextId + 1 }
  else s

/-- Two members hold the crown, every role-remove fails, a default
channel is configured, and the winner (uid 1) is a member who does not
hold the crown. -/
def c2state : GuildState :=
  { defaultChannel := true, leaderboard := [1],
    members := [⟨1, false⟩, ⟨2, true⟩, ⟨3, true⟩],
    removeOk := fun _ => false, addOk := fun _ => true,
    crownMessage := none, crownRoleId := 9 }

/-- An eligible guild configuration: points enabled, crown role id 5
resolving in the role table, and a cron expression present. -/
def c3cfg : CrownConfig :=
  { enabled := true, crownRoleId := some 5, roleExists := fun r => r == 5,
    cron := some "0 0 * * 0" }

/-- Empty scheduler state: no active jobs. -/
def c3init : SchedState := { activeJobs := [], guildJob := none, nextId := 0 }

/-- One job (id 0) already active for the guild. -/
def c3wstate : SchedState := { activeJobs := [0], guildJob := some 0, nextId := 1 }

/-- A guild with no leaderboard rows. -/
def c4state : GuildState :=
  { defaultChannel := true, leaderboard := [], members := [⟨1, true⟩],
    removeOk := fun _ => true, addOk := fun _ => true,
    crownMessage := none, crownRoleId := 9 }

/-- The leaderboard's top user (uid 7) is not a guild member; member 1
holds the crown role; all gateway calls succeed; channel configured. -/
def c5state : GuildState :=
  { defaultChannel := true, leaderboard := [7],
    members := [⟨1, true⟩, ⟨2, false⟩],
    removeOk := fun _ => true, addOk := fun _ => true,
    crownMessage := none, crownRoleId := 9 }

/-- A guild with no leaderboard rows and no notification channel. -/
def c6empty : GuildState :=
  { defaultChannel := false, leaderboard := [], members := [],
    removeOk := fun _ => true, addOk := fun _ => true,
    crownMessage := none, crownRoleId := 9 }

/-- Top-ranked user (uid 7) is not a member and no notification channel
resolved; the single crown holder is stripped without failure. -/
def c6nowinner : GuildState :=
  { defaultChannel := false, leaderboard := [7], members := [⟨1, true⟩],
    removeOk := fun _ => true, addOk := fun _ => true,
    crownMessage := none, crownRoleId := 9 }

/-- Three members, two of them crown holders; the remove for uid 2 fails
and no channel is configured, so the cycle aborts after the barrier. -/
def c7state : GuildState :=
  { defaultChannel := false, leaderboard := [1],
    members := [⟨1, true⟩, ⟨2, true⟩, ⟨3, false⟩],
    removeOk := fun u => u != 2, addOk := fun _ => true,
    crownMessage := none, crownRoleId := 9 }

/-- An ineligible configuration: the use-points flag is off. -/
def c8cfg : CrownConfig :=
  { enabled := false, crownRoleId := some 5, roleExists := fun _ => true,
    cron := some "0 0 * * 0" }

/-- Scheduler state used for the C8 witness. -/
def c8state : SchedState := { activeJobs := [], guildJob := none, nextId := 0 }

/-- No notification channel; the remove for crown holder uid 2 fails, so
the quit flag is set and the cycle aborts after the strip barrier. -/
def c10state : GuildState :=
  { defaultChannel := false, leaderboard := [1],
    members := [⟨1, true⟩, ⟨2, true⟩],
    removeOk := fun u => u != 2, addOk := fun _ => true,
    crownMessage := none, crownRoleId := 9 }

theorem stripList_mem (st : GuildState) (ms : List Member) :
    ∀ e ∈ (stripList st ms).1, isStripEffect e = true := by
  induction ms with
  | nil => intro e he; simp [stripList] at he
  | cons m ms ih =>
    intro e he
    simp only [stripList, List.mem_append] at he
    rcases he with he | he
    · unfold stripMemberEffects at he
      split at he
      · split at he
        · simp only [List.mem_singleton] at he
          subst he; rfl
        · split at he
          · simp only [List.mem_cons, List.not_mem_nil, or_false] at he
            rcases he with he | he <;> (subst he; rfl)
          · simp only [List.mem_singleton] at he
            subst he; rfl
      · simp at he
    · exact ih e he

theorem stripList_no_clear (st : GuildState) (ms : List Member) :
    Effect.clearPoints ∉ (stripList st ms).1 := by
  intro h
  have := stripList_mem st ms _ h
  simp [isStripEffect] at this

theorem stripList_no_grant (st : GuildState) (ms : List Member) :
    ∀ e ∈ (stripList st ms).1, isRoleAdd e = false := by
  intro e he
  have := stripList_mem st ms _ he
  cases e <;> simp_all [isStripEffect, isRoleAdd]

theorem stripList_count_clear (st : GuildState) (ms : List Member) :
    (stripList st ms).1.count Effect.clearPoints = 0 :=
  List.count_eq_zero.mpr (stripList_no_clear st ms)

theorem stripList_any_grant (st : GuildState) (ms : List Member) :
    ((stripList st ms).1.any (fun e => isSuccGrant st e)) = false := by
  rw [List.any_eq_false]
  intro e he
  have := stripList_mem st ms _ he
  cases e <;> simp_all [isStripEffect, isSuccGrant]

theorem stripList_quit (st : GuildState) (ms : List Member) :
    (stripList st ms).2
      = (!(st.defaultChannel) && ms.any (fun m => m.hasCrown && !(st.removeOk m.uid))) := by
  induction ms with
  | nil => simp [stripList]
  | cons m ms ih =>
    simp only [stripList, stripMemberQuit, ih, List.any_cons]
    cases st.defaultChannel <;> cases m.hasCrown <;> cases st.removeOk m.uid <;> simp

theorem stripList_holder_mem (st : GuildState) (ms : List Member) (m : Member)
    (hm : m ∈ ms) (hc : m.hasCrown = true) :
    Effect.roleRemove m.uid ∈ (stripList st ms).1 := by
  induction ms with
  | nil => simp at hm
  | cons x xs ih =>
    simp only [stripList, List.mem_append]
    rcases List.mem_cons.mp hm with h | h
    · subst h
      left
      rcases hr : st.removeOk m.uid <;> rcases hd : st.defaultChannel <;>
        simp [stripMemberEffects, hc, hr, hd]
    · exact Or.inr (ih h)

theorem stripList_notice_count (st : GuildState) (ms : List Member)
    (h : st.defaultChannel = true) :
    (stripList st ms).1.count Effect.stripNotice
      = (ms.filter (fun m => m.hasCrown && !(st.removeOk m.uid))).length := by
  induction ms with
  | nil => simp [stripList]
  | cons m ms ih =>
    simp only [stripList, List.count_append, ih, List.filter_cons]
    unfold stripMemberEffects
    rw [h]
    cases hc : m.hasCrown <;> cases hr : st.removeOk m.uid <;>
      simp [List.count_cons, Nat.add_comm]

theorem isSuccGrant_roleAdd (st : GuildState) (v : Nat) :
    isSuccGrant st (Effect.roleAdd v) = st.addOk v := rfl

theorem isSuccGrant_clear (st : GuildState) :
    isSuccGrant st Effect.clearPoints = false := rfl

theorem isSuccGrant_grantNotice (st : GuildState) :
    isSuccGrant st Effect.grantNotice = false := rfl

theorem isSuccGrant_logSuccess (st : GuildState) (v : Nat) :
    isSuccGrant st (Effect.logSuccess v) = false := rfl

theorem isSuccGrant_crownMsg (st : GuildState) (s : String) :
    isSuccGrant st (Effect.crownMsg s) = false := rfl

theorem msgEffects_count_clear (st : GuildState) (w : Member) :
    (msgEffects st w).count Effect.clearPoints = 0 := by
  unfold msgEffects
  cases st.crownMessage with
  | none => simp
  | some t => cases hd : st.defaultChannel <;> simp [hd]

theorem msgEffects_any_grant (st : GuildState) (w : Member) :
    ((msgEffects st w).any (fun e => isSuccGrant st e)) = false := by
  unfold msgEffects
  cases st.crownMessage with
  | none => simp
  | some t => cases hd : st.defaultChannel <;> simp [hd, isSuccGrant_crownMsg]

theorem rotateCrown_nil (st : GuildState) (h : st.leaderboard = []) :
    rotateCrown st = ⟨[], true⟩ := by
  unfold rotateCrown; rw [h]

theorem rotateCrown_cons (st : GuildState) (u : Nat) (rest : List Nat)
    (h : st.leaderboard = u :: rest) :
    rotateCrown st =
      (if (stripPhase st).2 then ⟨(stripPhase st).1, false⟩
       else
         match st.members.find? (fun m => m.uid == u) with
         | none =>
           if st.defaultChannel then ⟨(stripPhase st).1 ++ [Effect.grantNotice], false⟩
           else ⟨(stripPhase st).1, true⟩
         | some w =>
           if st.addOk w.uid then
             ⟨(stripPhase st).1 ++ [Effect.roleAdd w.uid, Effect.clearPoints]
               ++ msgEffects st w ++ [Effect.logSuccess w.uid], false⟩
           else if st.defaultChannel then
             ⟨(stripPhase st).1 ++ [Effect.roleAdd w.uid, Effect.grantNotice], false⟩
           else
             ⟨(stripPhase st).1 ++ [Effect.roleAdd w.uid, Effect.logSuccess w.uid], false⟩) := by
  unfold rotateCrown; rw [h]

/-- C1: points are cleared if and only if the grant-phase role-add for the
winner succeeded — the trace contains exactly one `clearPoints` when it
contains a successful role-add, and none otherwise; no path reaches
`clearPoints` after a grant failure or a strip-phase abort. -/
theorem C1_points_cleared_iff_grant (st : GuildState) :
    (rotateCrown st).effects.count Effect.clearPoints
      = (if ((rotateCrown st).effects.any (fun e => isSuccGrant st e)) then 1 else 0) := by
  cases hlb : st.leaderboard with
  | nil => rw [rotateCrown_nil st hlb]; simp
  | cons u rest =>
    rw [rotateCrown_cons st u rest hlb]
    unfold stripPhase
    by_cases hq : (stripList st st.members).2 = true
    · simp [hq, stripList_count_clear, stripList_any_grant, -List.any_eq_true]
    · cases hw : st.members.find? (fun m => m.uid == u) with
      | none =>
        cases hd : st.defaultChannel <;>
          simp [hq, hw, hd, List.count_append, List.any_append,
                stripList_count_clear, stripList_any_grant,
                isSuccGrant_grantNotice, -List.any_eq_true]
      | some w =>
        cases ha : st.addOk w.uid <;> cases hd : st.defaultChannel <;>
          simp [hq, hw, ha, hd, List.count_append, List.any_append,
                stripList_count_clear, stripList_any_grant,
                msgEffects_count_clear, msgEffects_any_grant,
                isSuccGrant_roleAdd, isSuccGrant_clear, isSuccGrant_grantNotice,
                isSuccGrant_logSuccess, List.count_cons, List.any_cons,
                -List.any_eq_true]

/-- C2 counterexample: with a configured channel and two failing strip
removes, the code sends TWO diagnostic notices (one per failure, not one
on the first failure only), does not abort, issues the grant role-add
and clears the points. -/
theorem C2_cex_no_abort_with_channel :
    (rotateCrown c2state).effects.count Effect.stripNotice = 2 ∧
    Effect.roleAdd 1 ∈ (rotateCrown c2state).effects ∧
    Effect.clearPoints ∈ (rotateCrown c2state).effects := by decide

/-- C2 amended: when a notification channel is configured, strip failures
send one diagnostic notice PER failure, the cycle-level abort flag is
never set, and the cycle proceeds to the grant phase (the winner's
role-add is issued whenever the winner resolves to a member). -/
theorem C2_amended_notice_per_failure (st : GuildState)
    (hch : st.defaultChannel = true) :
    (stripPhase st).2 = false ∧
    (stripPhase st).1.count Effect.stripNotice
      = (st.members.filter (fun m => m.hasCrown && !(st.removeOk m.uid))).length ∧
    (∀ u rest w, st.leaderboard = u :: rest →
      st.members.find? (fun m => m.uid == u) = some w →
      Effect.roleAdd w.uid ∈ (rotateCrown st).effects) := by
  have hq : (stripPhase st).2 = false := by
    unfold stripPhase; rw [stripList_quit, hch]; simp
  refine ⟨hq, stripList_notice_count st st.members hch, ?_⟩
  intro u rest w hlb hw
  rw [rotateCrown_cons st u rest hlb]
  simp only [hq, Bool.false_eq_true, if_false, hw]
  cases ha : st.addOk w.uid <;> simp [ha, hch, List.mem_append]

/-- C2 witness: the amended statement instantiated at the concrete state. -/
theorem C2_amended_notice_per_failure_w :
    c2state.defaultChannel = true ∧
    (stripPhase c2state).2 = false ∧
    Effect.roleAdd 1 ∈ (rotateCrown c2state).effects :=
  ⟨rfl, (C2_amended_notice_per_failure c2state rfl).1,
    (C2_amended_notice_per_failure c2state rfl).2.2 1 [] ⟨1, false⟩ rfl rfl⟩

/-- C3 counterexample: scheduling the same eligible guild twice leaves
TWO active node-schedule jobs — the first job (id 0) is never cancelled
and can still fire; only the `guild.job` reference was overwritten. -/
theorem C3_cex_two_active_jobs :
    (scheduleCrown c3cfg (scheduleCrown c3cfg c3init)).activeJobs.length = 2 ∧
    0 ∈ (scheduleCrown c3cfg (scheduleCrown c3cfg c3init)).activeJobs ∧
    (scheduleCrown c3cfg (scheduleCrown c3cfg c3init)).guildJob = some 1 := by decide

/-- C3 amended: a scheduling call for an eligible guild never cancels a
previously active job — every job active before the call is still active
after it, the active-job count grows by one, and only the `guild.job`
reference is replaced by the new handle. -/
theorem C3_amended_old_job_survives (c : CrownConfig) (s : SchedState)
    (h : eligible c = true) (j : Nat) (hj : j ∈ s.activeJobs) :
    j ∈ (scheduleCrown c s).activeJobs ∧
    (scheduleCrown c s).activeJobs.length = s.activeJobs.length + 1 ∧
    (scheduleCrown c s).guildJob = some s.nextId := by
  simp [scheduleCrown, h, hj]

/-- C3 witness: the amended statement at a concrete eligible config and a
state with one active job. -/
theorem C3_amended_old_job_survives_w :
    eligible c3cfg = true ∧ 0 ∈ c3wstate.activeJobs ∧
    (0 ∈ (scheduleCrown c3cfg c3wstate).activeJobs ∧
     (scheduleCrown c3cfg c3wstate).activeJobs.length = c3wstate.activeJobs.length + 1 ∧
     (scheduleCrown c3cfg c3wstate).guildJob = some c3wstate.nextId) :=
  ⟨by decide, by decide,
    C3_amended_old_job_survives c3cfg c3wstate (by decide) 0 (by decide)⟩

/-- C4: at the failing input (empty leaderboard) the cycle performs zero
role mutations and zero point-clears, but instead of aborting silently
it throws an uncaught TypeError (`leaderboard[0].user_id` on an empty
array) that propagates out of the executor. -/
theorem C4_empty_leaderboard_throws :
    (rotateCrown c4state).effects = [] ∧ (rotateCrown c4state).threw = true := by
  decide

/-- C5 counterexample: when the top-ranked user is not a member the cycle
does NOT abort with zero mutating calls — the strip phase still issues a
role-remove to the crown holder. -/
theorem C5_cex_strip_still_runs :
    Effect.roleRemove 1 ∈ (rotateCrown c5state).effects := by decide

/-- C5 amended: when the top-ranked user is not a current member, the
strip phase still runs (a role-remove is issued to every crown holder),
but no role-add gateway call is issued and points are not cleared; the
missing winner only surfaces in the grant phase, where `winner.addRole`
throws and is caught. -/
theorem C5_amended_no_grant_no_clear (st : GuildState) (u : Nat) (rest : List Nat)
    (h1 : st.leaderboard = u :: rest)
    (h2 : st.members.find? (fun m => m.uid == u) = none) :
    (rotateCrown st).effects.all (fun e => !(isRoleAdd e)) = true ∧
    (rotateCrown st).effects.contains Effect.clearPoints = false ∧
    st.members.all
      (fun m => !(m.hasCrown)
        || (rotateCrown st).effects.contains (Effect.roleRemove m.uid)) = true := by
  rw [rotateCrown_cons st u rest h1]
  simp only [h2]
  have effEq :
      (if (stripPhase st).2 then (⟨(stripPhase st).1, false⟩ : RunResult)
       else if st.defaultChannel then ⟨(stripPhase st).1 ++ [Effect.grantNotice], false⟩
       else ⟨(stripPhase st).1, true⟩).effects
        = (stripPhase st).1 ++
            (if (stripPhase st).2 = false ∧ st.defaultChannel = true
             then [Effect.grantNotice] else []) := by
    cases hq : (stripPhase st).2 <;> cases hd : st.defaultChannel <;> simp [hq, hd]
  rw [effEq]
  refine ⟨?_, ?_, ?_⟩
  · rw [List.all_eq_true]
    intro e he
    rcases List.mem_append.mp he with he | he
    · have := stripList_mem st st.members e he
      cases e <;> simp_all [isStripEffect, isRoleAdd]
    · split at he <;> simp_all [isRoleAdd]
  · rw [Bool.eq_false_iff]
    intro hc
    have hmem := List.elem_iff.mp hc
    rcases List.mem_append.mp hmem with he | he
    · exact stripList_no_clear st st.members he
    · split at he <;> simp_all
  · rw [List.all_eq_true]
    intro m hm
    cases hc : m.hasCrown
    · simp
    · have := stripList_holder_mem st st.members m hm hc
      simp only [Bool.not_true, Bool.false_or]
      exact List.elem_iff.mpr (List.mem_append.mpr (Or.inl this))

/-- C5 witness: the amended statement at the concrete missing-winner
state. -/
theorem C5_amended_no_grant_no_clear_w :
    c5state.leaderboard = 7 :: [] ∧
    c5state.members.find? (fun m => m.uid == 7) = none ∧
    ((rotateCrown c5state).effects.all (fun e => !(isRoleAdd e)) = true ∧
     (rotateCrown c5state).effects.contains Effect.clearPoints = false ∧
     c5state.members.all
       (fun m => !(m.hasCrown)
         || (rotateCrown c5state).effects.contains (Effect.roleRemove m.uid)) = true) :=
  ⟨rfl, rfl, C5_amended_no_grant_no_clear c5state 7 [] rfl rfl⟩

/-- C6: the executor does let unhandled failures propagate: with an empty
leaderboard, and likewise with a missing winner and no notification
channel (the final log line dereferences the absent winner), the run
throws an uncaught TypeError past the executor to the scheduler. -/
theorem C6_unhandled_failure_propagates :
    (rotateCrown c6empty).threw = true ∧ (rotateCrown c6nowinner).threw = true := by
  decide

theorem stripPhase_all_holders (st : GuildState) :
    st.members.all
      (fun m => !(m.hasCrown)
        || (stripPhase st).1.contains (Effect.roleRemove m.uid)) = true := by
  rw [List.all_eq_true]
  intro m hm
  cases hc : m.hasCrown
  · simp
  · simp only [Bool.not_true, Bool.false_or]
    exact List.elem_iff.mpr (stripList_holder_mem st st.members m hm hc)

theorem rotateCrown_strip_first (st : GuildState) (u : Nat) (rest : List Nat)
    (h : st.leaderboard = u :: rest) :
    ∃ t, (rotateCrown st).effects = (stripPhase st).1 ++ t := by
  rw [rotateCrown_cons st u rest h]
  by_cases hq : (stripPhase st).2 = true
  · exact ⟨[], by simp [hq]⟩
  · cases hw : st.members.find? (fun m => m.uid == u) with
    | none =>
      cases hd : st.defaultChannel
      · exact ⟨[], by simp [hq, hw, hd]⟩
      · exact ⟨[Effect.grantNotice], by simp [hq, hw, hd]⟩
    | some w =>
      cases ha : st.addOk w.uid
      · cases hd : st.defaultChannel
        · exact ⟨[Effect.roleAdd w.uid, Effect.logSuccess w.uid],
            by simp [hq, hw, ha, hd]⟩
        · exact ⟨[Effect.roleAdd w.uid, Effect.grantNotice],
            by simp [hq, hw, ha, hd]⟩
      · exact ⟨Effect.roleAdd w.uid :: Effect.clearPoints
            :: (msgEffects st w ++ [Effect.logSuccess w.uid]),
          by simp [hq, hw, ha]⟩

/-- C7: the strip phase attempts a role-remove for every current crown
holder regardless of other members' failures, and the whole strip
fan-out precedes everything else in the trace — the abort/continue
decision and any grant-phase effect come only after the full barrier. -/
theorem C7_full_fanout_before_decision (st : GuildState) (u : Nat) (rest : List Nat)
    (h : st.leaderboard = u :: rest) :
    (rotateCrown st).effects.take ((stripPhase st).1.length) = (stripPhase st).1 ∧
    st.members.all
      (fun m => !(m.hasCrown)
        || (stripPhase st).1.contains (Effect.roleRemove m.uid)) = true := by
  constructor
  · obtain ⟨t, ht⟩ := rotateCrown_strip_first st u rest h
    rw [ht, List.take_left]
  · exact stripPhase_all_holders st

/-- C7 witness: the fan-out statement at a concrete three-member state in
which one remove fails and the cycle aborts. -/
theorem C7_full_fanout_before_decision_w :
    c7state.leaderboard = 1 :: [] ∧
    ((rotateCrown c7state).effects.take ((stripPhase c7state).1.length)
        = (stripPhase c7state).1 ∧
     c7state.members.all
       (fun m => !(m.hasCrown)
         || (stripPhase c7state).1.contains (Effect.roleRemove m.uid)) = true) :=
  ⟨rfl, C7_full_fanout_before_decision c7state 1 [] rfl⟩

/-- C8: for an ineligible guild — points disabled, crown role id absent,
crown role id not resolving to a real role, or cron expression absent —
the scheduling operation installs no job and leaves the scheduler state
untouched. -/
theorem C8_ineligible_no_job (c : CrownConfig) (s : SchedState)
    (h : c.enabled = false ∨ c.crownRoleId = none ∨
         (∃ r, c.crownRoleId = some r ∧ c.roleExists r = false) ∨ c.cron = none) :
    scheduleCrown c s = s := by
  have he : eligible c = false := by
    unfold eligible
    rcases h with h | h | ⟨r, hr, hx⟩ | h
    · simp [h]
    · simp [h]
    · simp [hr, hx]
    · simp [h]
  simp [scheduleCrown, he]

/-- C8 witness: a disabled guild's scheduling call is a no-op. -/
theorem C8_ineligible_no_job_w :
    (c8cfg.enabled = false ∨ c8cfg.crownRoleId = none ∨
     (∃ r, c8cfg.crownRoleId = some r ∧ c8cfg.roleExists r = false) ∨
     c8cfg.cron = none) ∧
    scheduleCrown c8cfg c8state = c8state :=
  ⟨Or.inl rfl, C8_ineligible_no_job c8cfg c8state (Or.inl rfl)⟩

/-- C9 counterexample: substitution uses JS first-occurrence semantics,
so a template repeating the member placeholder keeps its second
occurrence verbatim instead of substituting all occurrences. -/
theorem C9_cex_second_occurrence_kept :
    renderCrownMessage "?member wins ?member" "W" "R" = "W wins ?member" ∧
    renderCrownMessage "?member wins ?member" "W" "R" ≠ "W wins W" := by decide

theorem startsWithL_append (pat l : List Char) (h : startsWithL pat l = true) :
    l = pat ++ l.drop pat.length := by
  induction pat generalizing l with
  | nil => simp
  | cons p ps ih =>
    cases l with
    | nil => simp [startsWithL] at h
    | cons c cs =>
      simp only [startsWithL, Bool.and_eq_true, beq_iff_eq] at h
      obtain ⟨h1, h2⟩ := h
      subst h1
      simp only [List.cons_append, List.length_cons, List.drop_succ_cons]
      exact congrArg (List.cons p) (ih cs h2)

/-- C9 amended: the renderer's substitution primitive replaces exactly
the first occurrence of a (nonempty) placeholder and leaves the rest of
the template — including any later occurrence of the same placeholder —
verbatim: the input splits as p ++ pat ++ s with output p ++ repl ++ s,
or is returned unchanged when the placeholder does not occur. -/
theorem C9_amended_first_occurrence_only (pat repl l : List Char) (hp : pat ≠ []) :
    (occursIn pat l = false ∧ replaceFirstL pat repl l = l) ∨
    (∃ p s, l = p ++ pat ++ s ∧ replaceFirstL pat repl l = p ++ repl ++ s) := by
  induction l with
  | nil =>
    left
    constructor
    · cases pat with
      | nil => exact absurd rfl hp
      | cons a as => rfl
    · rfl
  | cons c cs ih =>
    cases hs : startsWithL pat (c :: cs) with
    | true =>
      right
      refine ⟨[], (c :: cs).drop pat.length, ?_, ?_⟩
      · simpa using startsWithL_append pat (c :: cs) hs
      · simp [replaceFirstL, hs]
    | false =>
      rcases ih with ⟨h1, h2⟩ | ⟨p, s, he, hr⟩
      · left
        constructor
        · simp [occursIn, hs, h1]
        · simp [replaceFirstL, hs, h2]
      · right
        refine ⟨c :: p, s, ?_, ?_⟩
        · simp [he]
        · simp [replaceFirstL, hs, hr]

/-- C9 witness: the first-occurrence statement at the `?member`
placeholder and a template containing it twice. -/
theorem C9_amended_first_occurrence_only_w :
    "?member".toList ≠ [] ∧
    ((occursIn "?member".toList "say ?member twice ?member".toList = false ∧
      replaceFirstL "?member".toList "W".toList "say ?member twice ?member".toList
        = "say ?member twice ?member".toList) ∨
     (∃ p s, "say ?member twice ?member".toList = p ++ "?member".toList ++ s ∧
      replaceFirstL "?member".toList "W".toList "say ?member twice ?member".toList
        = p ++ "W".toList ++ s)) :=
  ⟨by decide, C9_amended_first_occurrence_only _ _ _ (by decide)⟩

/-- C10: the cycle-level quit flag is set exactly when a strip failure
happens with no notification channel resolved; whenever it is set (and
the leaderboard is nonempty so the strip phase runs at all), the cycle
ends right after the strip barrier: the trace is exactly the strip
effects, nothing is thrown, and no role-add or point-clear occurs. -/
theorem C10_abort_only_without_channel (st : GuildState) :
    (stripPhase st).2
      = (!(st.defaultChannel)
          && st.members.any (fun m => m.hasCrown && !(st.removeOk m.uid))) ∧
    ((stripPhase st).2 = true →
      ∀ u rest, st.leaderboard = u :: rest →
        (rotateCrown st).effects = (stripPhase st).1 ∧
        (rotateCrown st).threw = false ∧
        (rotateCrown st).effects.all
          (fun e => !(isRoleAdd e) && !(e == Effect.clearPoints)) = true) := by
  refine ⟨stripList_quit st st.members, ?_⟩
  intro hq u rest hlb
  rw [rotateCrown_cons st u rest hlb]
  rw [if_pos hq]
  refine ⟨rfl, rfl, ?_⟩
  rw [List.all_eq_true]
  intro e he
  have := stripList_mem st st.members e he
  cases e <;> simp_all [isStripEffect, isRoleAdd]

/-- C10 witness: the abort behaviour at a concrete channel-less state
with one failing remove. -/
theorem C10_abort_only_without_channel_w :
    (stripPhase c10state).2 = true ∧
    ((rotateCrown c10state).effects = (stripPhase c10state).1 ∧
     (rotateCrown c10state).threw = false ∧
     (rotateCrown c10state).effects.all
       (fun e => !(isRoleAdd e) && !(e == Effect.clearPoints)) = true) :=
  ⟨by decide, (C10_abort_only_without_channel c10state).2 (by decide) 1 [] rfl⟩
